import Mathlib

/-!
Shallow embedding of the fntwo motion-capture relay (src/main.go and
src/cmd/cmd.go): the VMC protocol decoder, the live pose state
(liveVRM), the websocket broadcast pool, the camera sync handlers and
the receiver switch handler.

Modelling conventions, used throughout:
- Go float32 values are modelled as rationals. Every operation the
  embedded code performs on them is a comparison or a plain copy, never
  rounding arithmetic, so the order structure is all that matters.
- Go strings are modelled through their character lists. The character
  classes of the regular expressions in the source are exactly the
  ASCII ranges their patterns spell out, and strings.ToLower is
  embedded on its ASCII action, which covers every key the fixed
  vocabularies contain.
- Go maps keyed by strings with a fixed field set on the other side of
  a JSON round trip (the bones struct, the face blend shapes struct)
  are modelled as total functions from an enumeration of the fields.
-/

namespace Vanezo

/-- Character class [a-z] of the source regular expressions. -/
def isLowerCh (c : Char) : Bool := 97 ≤ c.toNat && c.toNat ≤ 122

/-- Character class [A-Z] of the source regular expressions. -/
def isUpperCh (c : Char) : Bool := 65 ≤ c.toNat && c.toNat ≤ 90

/-- Character class [0-9], part of the second pattern of camelToSnake. -/
def isDigitCh (c : Char) : Bool := 48 ≤ c.toNat && c.toNat ≤ 57

/-- Class of the dot pattern of Go regexp: any character except a newline. -/
def isDotCh (c : Char) : Bool := c != '\n'

/-- ASCII action of strings.ToLower on one character. -/
def lowerCh (c : Char) : Char := if isUpperCh c then Char.ofNat (c.toNat + 32) else c

/-- Embedding of regexp ReplaceAllString for a pattern of two
single-character classes whose replacement reinserts both groups with
an underscore between them. The scan is leftmost first; after a match
the scan resumes past the matched pair, which is exactly the
non-overlapping semantics of ReplaceAllString for such a pattern.
Instantiated with the patterns of normalizeVMCKey and camelToSnake. -/
def sepPairs (p q : Char → Bool) : List Char → List Char
  | [] => []
  | [c] => [c]
  | c :: d :: rest =>
    if p c && q d then c :: '_' :: d :: sepPairs p q rest
    else c :: sepPairs p q (d :: rest)

/-- Embedding of regexp ReplaceAllString for the first pattern of
camelToSnake, a dot followed by an uppercase letter followed by a
maximal nonempty run of lowercase letters, whose replacement reinserts
both groups with an underscore between them. The fuel argument only
bounds the recursion and never runs out when it starts at the length
of the list, since every step consumes at least one character. -/
def sepFirstCapGo : Nat → List Char → List Char
  | 0, l => l
  | _, [] => []
  | _, [c] => [c]
  | fuel + 1, c :: d :: rest =>
    if isDotCh c && isUpperCh d && (match rest with | e :: _ => isLowerCh e | [] => false) then
      c :: '_' :: d :: (rest.takeWhile isLowerCh ++ sepFirstCapGo fuel (rest.dropWhile isLowerCh))
    else
      c :: sepFirstCapGo fuel (d :: rest)

/-- ReplaceAllString for the first pattern of camelToSnake, at full fuel. -/
def sepFirstCap (l : List Char) : List Char := sepFirstCapGo l.length l

/-- Embedding of regexp ReplaceAllString for a pattern anchored at the
end of the string: when the string ends in the given suffix, that
suffix is rewritten, otherwise nothing changes. Instantiated with the
trailing patterns of normalizeVMCKey, whose replacements are literal. -/
def rewriteEnding (suffix replacement l : List Char) : List Char :=
  if suffix.isSuffixOf l then l.take (l.length - suffix.length) ++ replacement else l

/-- Embedding of camelToSnake (src/main.go lines 358 to 374): rewrite
the pattern of a dot before an uppercase letter and a lowercase run,
then the pattern of a lowercase letter or digit before an uppercase
letter, inserting an underscore between the groups of each match, and
lower the whole string. The regexp compilations in the source cannot
fail on these constant patterns, so the error path is dead code. -/
def camelToSnake (s : String) : String :=
  ⟨(sepPairs (fun c => isLowerCh c || isDigitCh c) isUpperCh (sepFirstCap s.data)).map lowerCh⟩

/-- Embedding of normalizeVMCKey (src/main.go lines 332 to 355):
rewrite the pattern of a lowercase letter before an uppercase letter,
inserting an underscore between them, lower the whole string, then
rewrite a trailing underscore l to left and a trailing underscore r to
right. The regexp compilations cannot fail on these constant patterns. -/
def normalizeVMCKey (s : String) : String :=
  ⟨rewriteEnding ['_', 'r'] ['_', 'r', 'i', 'g', 'h', 't']
    (rewriteEnding ['_', 'l'] ['_', 'l', 'e', 'f', 't']
      ((sepPairs isLowerCh isUpperCh s.data).map lowerCh))⟩

/-- One OSC message argument as the handlers type-assert it: a string,
a float32 (modelled as a rational), or an argument of any other OSC
type, on which both assertions fail. -/
inductive OscArg
  | str (s : String)
  | flt (v : ℚ)
  | other
deriving DecidableEq

/-- Outcome of running one piece of handler code: crash is an uncaught
Go runtime panic (an index out of range, a nil dereference), dropped is
an early return after a failed type assertion or lookup, and ok carries
the value or state left behind on the normal path. -/
inductive Outcome (α : Type)
  | crash
  | dropped
  | ok (a : α)
deriving DecidableEq

/-- objPosition (src/main.go lines 227 to 231). -/
structure ObjPosition where
  x : ℚ
  y : ℚ
  z : ℚ
deriving DecidableEq

/-- objQuaternionRotation (src/main.go lines 234 to 239). -/
structure ObjQuaternionRotation where
  x : ℚ
  y : ℚ
  z : ℚ
  w : ℚ
deriving DecidableEq

/-- objSphericalRotation (src/main.go lines 241 to 244). -/
structure ObjSphericalRotation where
  azimuthAngle : ℚ
  polarAngle : ℚ
deriving DecidableEq

/-- boneRotation (src/main.go lines 247 to 251). -/
structure BoneRotation where
  quaternion : ObjQuaternionRotation
  spherical : ObjSphericalRotation
deriving DecidableEq

/-- vrmBone (src/main.go lines 254 to 257). -/
structure VrmBone where
  position : ObjPosition
  rotation : BoneRotation
deriving DecidableEq

/-- Field set of vrmFaceBlendShapes (src/main.go lines 171 to 224), the
52 face blend shapes of the AR-kit spec. -/
inductive ShapeName
  | eyeBlinkLeft
  | eyeLookDownLeft
  | eyeLookInLeft
  | eyeLookOutLeft
  | eyeLookUpLeft
  | eyeSquintLeft
  | eyeWideLeft
  | eyeBlinkRight
  | eyeLookDownRight
  | eyeLookInRight
  | eyeLookOutRight
  | eyeLookUpRight
  | eyeSquintRight
  | eyeWideRight
  | jawForward
  | jawLeft
  | jawRight
  | jawOpen
  | mouthClose
  | mouthFunnel
  | mouthPucker
  | mouthLeft
  | mouthRight
  | mouthSmileLeft
  | mouthSmileRight
  | mouthFrownLeft
  | mouthFrownRight
  | mouthDimpleLeft
  | mouthDimpleRight
  | mouthStretchLeft
  | mouthStretchRight
  | mouthRollLower
  | mouthRollUpper
  | mouthShrugLower
  | mouthShrugUpper
  | mouthPressLeft
  | mouthPressRight
  | mouthLowerDownLeft
  | mouthLowerDownRight
  | mouthUpperUpLeft
  | mouthUpperUpRight
  | browDownLeft
  | browDownRight
  | browInnerUp
  | browOuterUpLeft
  | browOuterUpRight
  | cheekPuff
  | cheekSquintLeft
  | cheekSquintRight
  | noseSneerLeft
  | noseSneerRight
  | tongueOut
deriving DecidableEq, Fintype

/-- JSON tag of each field of vrmFaceBlendShapes. -/
def shapeTag : ShapeName → String
  | .eyeBlinkLeft => "EyeBlinkLeft"
  | .eyeLookDownLeft => "EyeLookDownLeft"
  | .eyeLookInLeft => "EyeLookInLeft"
  | .eyeLookOutLeft => "EyeLookOutLeft"
  | .eyeLookUpLeft => "EyeLookUpLeft"
  | .eyeSquintLeft => "EyeSquintLeft"
  | .eyeWideLeft => "EyeWideLeft"
  | .eyeBlinkRight => "EyeBlinkRight"
  | .eyeLookDownRight => "EyeLookDownRight"
  | .eyeLookInRight => "EyeLookInRight"
  | .eyeLookOutRight => "EyeLookOutRight"
  | .eyeLookUpRight => "EyeLookUpRight"
  | .eyeSquintRight => "EyeSquintRight"
  | .eyeWideRight => "EyeWideRight"
  | .jawForward => "JawForward"
  | .jawLeft => "JawLeft"
  | .jawRight => "JawRight"
  | .jawOpen => "JawOpen"
  | .mouthClose => "MouthClose"
  | .mouthFunnel => "MouthFunnel"
  | .mouthPucker => "MouthPucker"
  | .mouthLeft => "MouthLeft"
  | .mouthRight => "MouthRight"
  | .mouthSmileLeft => "MouthSmileLeft"
  | .mouthSmileRight => "MouthSmileRight"
  | .mouthFrownLeft => "MouthFrownLeft"
  | .mouthFrownRight => "MouthFrownRight"
  | .mouthDimpleLeft => "MouthDimpleLeft"
  | .mouthDimpleRight => "MouthDimpleRight"
  | .mouthStretchLeft => "MouthStretchLeft"
  | .mouthStretchRight => "MouthStretchRight"
  | .mouthRollLower => "MouthRollLower"
  | .mouthRollUpper => "MouthRollUpper"
  | .mouthShrugLower => "MouthShrugLower"
  | .mouthShrugUpper => "MouthShrugUpper"
  | .mouthPressLeft => "MouthPressLeft"
  | .mouthPressRight => "MouthPressRight"
  | .mouthLowerDownLeft => "MouthLowerDownLeft"
  | .mouthLowerDownRight => "MouthLowerDownRight"
  | .mouthUpperUpLeft => "MouthUpperUpLeft"
  | .mouthUpperUpRight => "MouthUpperUpRight"
  | .browDownLeft => "BrowDownLeft"
  | .browDownRight => "BrowDownRight"
  | .browInnerUp => "BrowInnerUp"
  | .browOuterUpLeft => "BrowOuterUpLeft"
  | .browOuterUpRight => "BrowOuterUpRight"
  | .cheekPuff => "CheekPuff"
  | .cheekSquintLeft => "CheekSquintLeft"
  | .cheekSquintRight => "CheekSquintRight"
  | .noseSneerLeft => "NoseSneerLeft"
  | .noseSneerRight => "NoseSneerRight"
  | .tongueOut => "TongueOut"

/-- Field set of vrmBones (src/main.go lines 260 to 317), the bones of
the Unity HumanBodyBones set. -/
inductive BoneName
  | hips
  | leftUpperLeg
  | rightUpperLeg
  | leftLowerLeg
  | rightLowerLeg
  | leftFoot
  | rightFoot
  | spine
  | chest
  | upperChest
  | neck
  | head
  | leftShoulder
  | rightShoulder
  | leftUpperArm
  | rightUpperArm
  | leftLowerArm
  | rightLowerArm
  | leftHand
  | rightHand
  | leftToes
  | rightToes
  | leftEye
  | rightEye
  | jaw
  | leftThumbProximal
  | leftThumbIntermediate
  | leftThumbDistal
  | leftIndexProximal
  | leftIndexIntermediate
  | leftIndexDistal
  | leftMiddleProximal
  | leftMiddleIntermediate
  | leftMiddleDistal
  | leftRingProximal
  | leftRingIntermediate
  | leftRingDistal
  | leftLittleProximal
  | leftLittleIntermediate
  | leftLittleDistal
  | rightThumbProximal
  | rightThumbIntermediate
  | rightThumbDistal
  | rightIndexProximal
  | rightIndexIntermediate
  | rightIndexDistal
  | rightMiddleProximal
  | rightMiddleIntermediate
  | rightMiddleDistal
  | rightRingProximal
  | rightRingIntermediate
  | rightRingDistal
  | rightLittleProximal
  | rightLittleIntermediate
  | rightLittleDistal
  | lastBone
deriving DecidableEq, Fintype

/-- JSON tag of each field of vrmBones. -/
def boneTag : BoneName → String
  | .hips => "hips"
  | .leftUpperLeg => "left_upper_leg"
  | .rightUpperLeg => "right_upper_leg"
  | .leftLowerLeg => "left_lower_leg"
  | .rightLowerLeg => "right_lower_leg"
  | .leftFoot => "left_foot"
  | .rightFoot => "right_foot"
  | .spine => "spine"
  | .chest => "chest"
  | .upperChest => "upper_chest"
  | .neck => "neck"
  | .head => "head"
  | .leftShoulder => "left_shoulder"
  | .rightShoulder => "right_shoulder"
  | .leftUpperArm => "left_upper_arm"
  | .rightUpperArm => "right_upper_arm"
  | .leftLowerArm => "left_lower_arm"
  | .rightLowerArm => "right_lower_arm"
  | .leftHand => "left_hand"
  | .rightHand => "right_hand"
  | .leftToes => "left_toes"
  | .rightToes => "right_toes"
  | .leftEye => "left_eye"
  | .rightEye => "right_eye"
  | .jaw => "jaw"
  | .leftThumbProximal => "left_thumb_proximal"
  | .leftThumbIntermediate => "left_thumb_intermediate"
  | .leftThumbDistal => "left_thumb_distal"
  | .leftIndexProximal => "left_index_proximal"
  | .leftIndexIntermediate => "left_index_intermediate"
  | .leftIndexDistal => "left_index_distal"
  | .leftMiddleProximal => "left_middle_proximal"
  | .leftMiddleIntermediate => "left_middle_intermediate"
  | .leftMiddleDistal => "left_middle_distal"
  | .leftRingProximal => "left_ring_proximal"
  | .leftRingIntermediate => "left_ring_intermediate"
  | .leftRingDistal => "left_ring_distal"
  | .leftLittleProximal => "left_little_proximal"
  | .leftLittleIntermediate => "left_little_intermediate"
  | .leftLittleDistal => "left_little_distal"
  | .rightThumbProximal => "right_thumb_proximal"
  | .rightThumbIntermediate => "right_thumb_intermediate"
  | .rightThumbDistal => "right_thumb_distal"
  | .rightIndexProximal => "right_index_proximal"
  | .rightIndexIntermediate => "right_index_intermediate"
  | .rightIndexDistal => "right_index_distal"
  | .rightMiddleProximal => "right_middle_proximal"
  | .rightMiddleIntermediate => "right_middle_intermediate"
  | .rightMiddleDistal => "right_middle_distal"
  | .rightRingProximal => "right_ring_proximal"
  | .rightRingIntermediate => "right_ring_intermediate"
  | .rightRingDistal => "right_ring_distal"
  | .rightLittleProximal => "right_little_proximal"
  | .rightLittleIntermediate => "right_little_intermediate"
  | .rightLittleDistal => "right_little_distal"
  | .lastBone => "last_bone"

/-- Field matching of encoding/json Unmarshal for the keys reaching it
here: a JSON object key selects the struct field whose tag equals it up
to ASCII case folding. Unmarshal prefers an exact match over a folded
one, but the tag sets of the embedded structs are pairwise distinct
under folding, so folding equality selects the same field either way. -/
def jsonKeyMatch (k tag : String) : Bool := k.data.map lowerCh == tag.data.map lowerCh

/-- Fields of the global liveVRM that the two OSC handlers read and
write (src/main.go lines 56 to 60 and 159 to 162): the bones struct and
the face blend shapes struct, each viewed as the total map from its
fixed field set to the field value. -/
structure VrmState where
  bones : BoneName → VrmBone
  faceShapes : ShapeName → ℚ

/-- Clamp of the blend value in the /VMC/Ext/Blend/Val handler
(src/main.go lines 436 to 443): first a value above 1 is set to 1, then
a value below 0 is set to 0. -/
def clampBlend (v : ℚ) : ℚ :=
  let v1 := if v > 1 then 1 else v
  if v1 < 0 then 0 else v1

/-- Merge of one blend-shape key into the face blend shapes (src/main.go
lines 445 to 456): the handler marshals a single-entry map and
unmarshals it into the struct, which sets every field whose JSON tag
matches the key and leaves all other fields untouched; a key matching
no tag is ignored without an error. -/
def applyBlendDelta (st : VrmState) (key : String) (v : ℚ) : VrmState :=
  { st with faceShapes := fun s => if jsonKeyMatch key (shapeTag s) then v else st.faceShapes s }

/-- Merge of one bone key into the bones struct (src/main.go lines 493
to 525): the handler marshals a single-entry map and unmarshals it into
the struct, which replaces every field whose JSON tag matches the key
with the new bone and leaves all other fields untouched; a key matching
no tag is ignored without an error. -/
def applyBoneDelta (st : VrmState) (key : String) (b : VrmBone) : VrmState :=
  { st with bones := fun bn => if jsonKeyMatch key (boneTag bn) then b else st.bones bn }

/-- Handler for /VMC/Ext/Blend/Val (src/main.go lines 424 to 457). The
code indexes Arguments 0 and 1 before any length check, so a message
with no arguments crashes at index 0 and a message whose only argument
is its string key crashes at index 1; a failed type assertion returns
early with nothing changed; otherwise the clamped value is merged under
the raw key. The JSON marshal of the single-entry map cannot fail on a
rational value and the unmarshal of its output cannot fail either. -/
def blendValHandler (st : VrmState) (args : List OscArg) : Outcome VrmState :=
  match args with
  | [] => .crash
  | a0 :: rest =>
    match a0 with
    | .str key =>
      match rest with
      | [] => .crash
      | a1 :: _ =>
        match a1 with
        | .flt v => .ok (applyBlendDelta st key (clampBlend v))
        | _ => .dropped
    | _ => .dropped

/-- parseKey (src/main.go lines 400 to 414): index 0 of the arguments,
a crash when the message has none, type-asserted as a string, an error
otherwise, then converted with camelToSnake. The dropped outcome stands
for the returned error, on which the calling handler returns early. -/
def parseKey (args : List OscArg) : Outcome String :=
  match args with
  | [] => .crash
  | a :: _ =>
    match a with
    | .str s => .ok (camelToSnake s)
    | _ => .dropped

/-- parseBone (src/main.go lines 380 to 394): every argument after the
first must type-assert as float32, otherwise an error is returned and
the calling handler returns early. -/
def parseBone (rest : List OscArg) : Option (List ℚ) :=
  match rest with
  | [] => some []
  | a :: as =>
    match a with
    | .flt v => (parseBone as).map (fun l => v :: l)
    | _ => none

/-- Handler for /VMC/Ext/Bone/Pos (src/main.go lines 460 to 527): parse
the key, dropping the message on a type error, parse the remaining
arguments as floats, dropping on a type error, then index positions 0
through 6 of the float list, a crash when fewer than seven floats
arrived, and merge the bone built from them, with a zero spherical
rotation, under the parsed key. -/
def bonePosHandler (st : VrmState) (args : List OscArg) : Outcome VrmState :=
  match parseKey args with
  | .crash => .crash
  | .dropped => .dropped
  | .ok key =>
    match parseBone args.tail with
    | none => .dropped
    | some value =>
      if 7 ≤ value.length then
        .ok (applyBoneDelta st key
          { position := { x := value.getD 0 0, y := value.getD 1 0, z := value.getD 2 0 },
            rotation :=
              { quaternion :=
                  { x := value.getD 3 0, y := value.getD 4 0,
                    z := value.getD 5 0, w := value.getD 6 0 },
                spherical := { azimuthAngle := 0, polarAngle := 0 } } })
      else .crash

/-- Zero value of a vrmBone, the state of every bone at startup. -/
def zeroBone : VrmBone :=
  { position := { x := 0, y := 0, z := 0 },
    rotation :=
      { quaternion := { x := 0, y := 0, z := 0, w := 0 },
        spherical := { azimuthAngle := 0, polarAngle := 0 } } }

/-- liveVRM at startup: every field at its zero value. -/
def vrmState0 : VrmState := { bones := fun _ => zeroBone, faceShapes := fun _ => 0 }

/-- cameraType (src/main.go lines 153 to 156), also the shape of the
camera object of the scene config in src/cmd/cmd.go. -/
structure Camera where
  position : ObjPosition
  target : ObjPosition
deriving DecidableEq

/-- One websocket client of the pool (src/main.go lines 67 to 70): its
ID and the values sent into its channel so far. -/
structure WsClient where
  id : String
  delivered : List Camera
deriving DecidableEq

/-- websocketPool (src/main.go lines 62 to 65): the registered clients.
The Go map keyed by ID is viewed as its entry list, whose keys are kept
distinct by map insertion. -/
structure WsPool where
  clients : List WsClient
deriving DecidableEq

/-- remove (src/main.go lines 99 to 103): the client with the given ID
is deleted from the map and its channel closed. -/
def poolRemove (p : WsPool) (i : String) : WsPool :=
  { clients := p.clients.filter (fun c => c.id != i) }

/-- One iteration of start (src/main.go lines 105 to 115): a message
taken from the broadcast channel is sent into the channel of every
client currently in the map. -/
def poolBroadcast (p : WsPool) (msg : Camera) : WsPool :=
  { clients := p.clients.map (fun c => { c with delivered := c.delivered ++ [msg] }) }

/-- The per-client sends that one iteration of start performs. -/
def poolDeliveries (p : WsPool) (msg : Camera) : List (String × Camera) :=
  p.clients.map (fun c => (c.id, msg))

/-- JSON object for one coordinate triple as Decode receives it: every
field may be absent from the frame. -/
structure ObjPositionPatch where
  x : Option ℚ
  y : Option ℚ
  z : Option ℚ

/-- JSON object for one camera frame as Decode receives it. -/
structure CameraPatch where
  position : Option ObjPositionPatch
  target : Option ObjPositionPatch

/-- Decode of encoding/json into an existing position: a field present
in the object overwrites the struct field, an absent field leaves the
previous value in place. -/
def applyPositionPatch (p : ObjPosition) (q : ObjPositionPatch) : ObjPosition :=
  { x := q.x.getD p.x, y := q.y.getD p.y, z := q.z.getD p.z }

/-- Decode of encoding/json into the existing camera struct: present
members are decoded into the corresponding nested structs, absent
members leave them untouched. -/
def applyCameraPatch (c : Camera) (q : CameraPatch) : Camera :=
  { position :=
      match q.position with
      | none => c.position
      | some pp => applyPositionPatch c.position pp,
    target :=
      match q.target with
      | none => c.target
      | some tp => applyPositionPatch c.target tp }

/-- One iteration of the /live/write/camera loop (src/cmd/cmd.go lines
276 to 294): ReadJSON decodes the received frame into the canonical
camera in place, then Update publishes the resulting canonical value to
the pool. The first component is the new canonical camera, the second
the value handed to the pool. -/
def writeCameraStep (c : Camera) (q : CameraPatch) : Camera × Camera :=
  let c2 := applyCameraPatch c q
  (c2, c2)

/-- Receiver registry state of the /api/receiver/update handler
(src/cmd/cmd.go lines 226 to 233 and 446 to 476): the names registered
in receiverMap and the name recorded as active in the app config. -/
structure Registry where
  names : List String
  active : String

/-- Lifecycle calls the switch handler makes on receivers, recorded in
program order. -/
inductive RecEvent
  | stop (name : String)
  | start (name : String)
deriving DecidableEq

/-- The /api/receiver/update handler (src/cmd/cmd.go lines 446 to 476):
a name absent from receiverMap logs and returns with nothing changed;
otherwise the handler calls Stop on the receiver recorded as active, a
nil dereference crash when that record names no registered receiver,
records the requested name as active, and calls Start on it. -/
def switchTo (r : Registry) (name : String) : Outcome (Registry × List RecEvent) :=
  if r.names.contains name then
    if r.names.contains r.active then
      .ok ({ r with active := name }, [.stop r.active, .start name])
    else .crash
  else .ok (r, [])

/-- The fixed key vocabularies the source enumerates: the 52 JSON tags
of vrmFaceBlendShapes and the 56 JSON tags of vrmBones. -/
def keyVocab : List String :=
  ["EyeBlinkLeft", "EyeLookDownLeft", "EyeLookInLeft", "EyeLookOutLeft",
   "EyeLookUpLeft", "EyeSquintLeft", "EyeWideLeft", "EyeBlinkRight",
   "EyeLookDownRight", "EyeLookInRight", "EyeLookOutRight", "EyeLookUpRight",
   "EyeSquintRight", "EyeWideRight", "JawForward", "JawLeft", "JawRight",
   "JawOpen", "MouthClose", "MouthFunnel", "MouthPucker", "MouthLeft",
   "MouthRight", "MouthSmileLeft", "MouthSmileRight", "MouthFrownLeft",
   "MouthFrownRight", "MouthDimpleLeft", "MouthDimpleRight",
   "MouthStretchLeft", "MouthStretchRight", "MouthRollLower",
   "MouthRollUpper", "MouthShrugLower", "MouthShrugUpper", "MouthPressLeft",
   "MouthPressRight", "MouthLowerDownLeft", "MouthLowerDownRight",
   "MouthUpperUpLeft", "MouthUpperUpRight", "BrowDownLeft", "BrowDownRight",
   "BrowInnerUp", "BrowOuterUpLeft", "BrowOuterUpRight", "CheekPuff",
   "CheekSquintLeft", "CheekSquintRight", "NoseSneerLeft", "NoseSneerRight",
   "TongueOut",
   "hips", "left_upper_leg", "right_upper_leg", "left_lower_leg",
   "right_lower_leg", "left_foot", "right_foot", "spine", "chest",
   "upper_chest", "neck", "head", "left_shoulder", "right_shoulder",
   "left_upper_arm", "right_upper_arm", "left_lower_arm", "right_lower_arm",
   "left_hand", "right_hand", "left_toes", "right_toes", "left_eye",
   "right_eye", "jaw", "left_thumb_proximal", "left_thumb_intermediate",
   "left_thumb_distal", "left_index_proximal", "left_index_intermediate",
   "left_index_distal", "left_middle_proximal", "left_middle_intermediate",
   "left_middle_distal", "left_ring_proximal", "left_ring_intermediate",
   "left_ring_distal", "left_little_proximal", "left_little_intermediate",
   "left_little_distal", "right_thumb_proximal", "right_thumb_intermediate",
   "right_thumb_distal", "right_index_proximal", "right_index_intermediate",
   "right_index_distal", "right_middle_proximal",
   "right_middle_intermediate", "right_middle_distal",
   "right_ring_proximal", "right_ring_intermediate", "right_ring_distal",
   "right_little_proximal", "right_little_intermediate",
   "right_little_distal", "last_bone"]

/-- C1: the claim states that a bone or blend message with a wrong
argument count or type yields a DecodeError, is dropped with the pose
store unchanged, and causes no process-level failure. The code instead
indexes the argument list without an arity check: a blend message
carrying only its string key crashes at Arguments index 1, and a bone
message whose key is followed by only three floats passes both parse
steps and then crashes indexing position 3 of the float list. -/
theorem c1_wrong_count_crashes :
    blendValHandler vrmState0 [OscArg.str "EyeBlinkLeft"] = Outcome.crash
  ∧ bonePosHandler vrmState0
      [OscArg.str "Hips", OscArg.flt 1, OscArg.flt 2, OscArg.flt 3] = Outcome.crash := by
  exact ⟨rfl, rfl⟩

/-- C3 counterexample: the claim states that the decoder rewrites a key
ending in an underscore followed by l to one ending in left. The key of
a bone message is parsed with parseKey, which applies camelToSnake and
no trailing rewrite, so the key hand_l decodes to hand_l and not to
hand_left; the unused helper normalizeVMCKey is the only function with
the trailing rewrite. -/
theorem c3_decoder_key_counterexample :
    parseKey [OscArg.str "hand_l"] = Outcome.ok "hand_l"
  ∧ "hand_l" ≠ "hand_left" := by
  exact ⟨rfl, by decide⟩

/-- C3 amended: normalizeVMCKey inserts a separator before each
uppercase letter that follows a lowercase letter, lowercases the whole
string, then rewrites a trailing underscore l to left and a trailing
underscore r to right, mapping EyeBlinkLeft to eye_blink_left,
BrowInnerUp to brow_inner_up, hand_l to hand_left and hand_r to
hand_right; the decoder itself, however, normalizes bone keys with
camelToSnake, which inserts separators and lowercases but performs no
trailing rewrite, and the blend handler applies no normalization at
all to its key. -/
theorem c3_normalization_amended :
    normalizeVMCKey "EyeBlinkLeft" = "eye_blink_left"
  ∧ normalizeVMCKey "BrowInnerUp" = "brow_inner_up"
  ∧ normalizeVMCKey "hand_l" = "hand_left"
  ∧ normalizeVMCKey "hand_r" = "hand_right"
  ∧ camelToSnake "EyeBlinkLeft" = "eye_blink_left"
  ∧ camelToSnake "BrowInnerUp" = "brow_inner_up"
  ∧ camelToSnake "hand_l" = "hand_l"
  ∧ parseKey [OscArg.str "EyeBlinkLeft"] = Outcome.ok "eye_blink_left" := by
  refine ⟨?_, ?_, ?_, ?_, ?_, ?_, ?_, ?_⟩ <;> rfl

/-- C9: over the fixed key vocabularies of the source, both
normalization functions are idempotent: applying normalizeVMCKey or
camelToSnake twice yields the same string as applying it once, for
every key of the vocabulary. Both functions are plain total functions
of their input string, hence deterministic and total. -/
theorem c9_normalization_idempotent :
    (keyVocab.all fun k =>
      decide (normalizeVMCKey (normalizeVMCKey k) = normalizeVMCKey k)
        && decide (camelToSnake (camelToSnake k) = camelToSnake k)) = true := by
  decide

/-- C4 counterexample: the claim states that every camera update from a
write-subscriber replaces the canonical camera as a whole, no field of
the previous camera surviving. ReadJSON decodes into the existing
struct, so a frame carrying only the x coordinate of the position
keeps the previous y, z and the whole previous target: at the canonical
camera position (1,2,3) target (4,5,6), the frame setting x to 9 yields
position (9,2,3) target (4,5,6), and the previous target survives. -/
theorem c4_partial_update_counterexample :
    (writeCameraStep
        { position := { x := 1, y := 2, z := 3 }, target := { x := 4, y := 5, z := 6 } }
        { position := some { x := some 9, y := none, z := none }, target := none }).1
      = { position := { x := 9, y := 2, z := 3 }, target := { x := 4, y := 5, z := 6 } }
  ∧ (writeCameraStep
        { position := { x := 1, y := 2, z := 3 }, target := { x := 4, y := 5, z := 6 } }
        { position := some { x := some 9, y := none, z := none }, target := none }).1.target
      = ({ position := { x := 1, y := 2, z := 3 }, target := { x := 4, y := 5, z := 6 } } : Camera).target := by
  exact ⟨rfl, rfl⟩

/-- C4 amended: each camera frame received on a write-subscriber
connection is decoded into the canonical camera by JSON merge, members
present in the frame replacing the corresponding canonical fields and
absent members leaving them unchanged; a frame carrying all six
coordinates therefore fully replaces the canonical camera; in every
case the value published to the broadcast pool is exactly the new
canonical camera. -/
theorem c4_camera_merge_amended :
    (∀ (c : Camera) (q : CameraPatch), (writeCameraStep c q).2 = (writeCameraStep c q).1)
  ∧ (∀ (c : Camera) (px py pz tx ty tz : ℚ),
      writeCameraStep c
          { position := some { x := some px, y := some py, z := some pz },
            target := some { x := some tx, y := some ty, z := some tz } }
        = ({ position := { x := px, y := py, z := pz },
             target := { x := tx, y := ty, z := tz } },
           { position := { x := px, y := py, z := pz },
             target := { x := tx, y := ty, z := tz } }))
  ∧ (∀ (c : Camera) (op : Option ObjPositionPatch),
      (applyCameraPatch c { position := op, target := none }).target = c.target)
  ∧ (∀ (c : Camera) (ot : Option ObjPositionPatch),
      (applyCameraPatch c { position := none, target := ot }).position = c.position) := by
  refine ⟨fun c q => rfl, fun c px py pz tx ty tz => rfl, fun c op => ?_, fun c ot => ?_⟩
  · cases op <;> rfl
  · cases ot <;> rfl

/-- C5: after a switch to a registered name B while the registered
receiver A was active, the handler returns normally, the active name is
B, Stop was invoked exactly once and on A, Start exactly once and on B,
and the recorded call order is the stop of A strictly before the start
of B. -/
theorem c5_receiver_switch (r : Registry) (B : String)
    (hB : r.names.contains B = true) (hA : r.names.contains r.active = true) :
    ∃ r2 evs, switchTo r B = Outcome.ok (r2, evs)
      ∧ r2.active = B
      ∧ evs = [RecEvent.stop r.active, RecEvent.start B]
      ∧ evs.count (RecEvent.stop r.active) = 1
      ∧ evs.count (RecEvent.start B) = 1 := by
  have hB2 : B ∈ r.names := by simpa using hB
  have hA2 : r.active ∈ r.names := by simpa using hA
  refine ⟨{ r with active := B }, [RecEvent.stop r.active, RecEvent.start B], ?_, rfl, rfl, ?_, ?_⟩
  · simp [switchTo, hB2, hA2]
  · simp [List.count_cons]
  · simp [List.count_cons]

/-- C5 witness: a concrete two-receiver registry switched from vmc to
mock. -/
theorem c5_receiver_switch_witness :
    ∃ r2 evs, switchTo { names := ["vmc", "mock"], active := "vmc" } "mock" = Outcome.ok (r2, evs)
      ∧ r2.active = "mock"
      ∧ evs = [RecEvent.stop "vmc", RecEvent.start "mock"]
      ∧ evs.count (RecEvent.stop "vmc") = 1
      ∧ evs.count (RecEvent.start "mock") = 1 :=
  c5_receiver_switch { names := ["vmc", "mock"], active := "vmc" } "mock" (by decide) (by decide)

/-- C6: one broadcast iteration sends the message into the channel of
every client registered at that time exactly once, each client channel
growing by exactly that one value, and the number of sends equals the
number of registered clients; after a client is removed, a subsequent
broadcast performs no send to that ID. -/
theorem c6_broadcast_delivery :
    (∀ (p : WsPool) (v : Camera),
        (poolBroadcast p v).clients.map (fun c => (c.id, c.delivered))
          = p.clients.map (fun c => (c.id, c.delivered ++ [v])))
  ∧ (∀ (p : WsPool) (v : Camera), (poolDeliveries p v).length = p.clients.length)
  ∧ (∀ (p : WsPool) (i : String) (v : Camera) (d : String × Camera),
        d ∈ poolDeliveries (poolRemove p i) v → d.1 ≠ i) := by
  refine ⟨fun p v => ?_, fun p v => ?_, fun p i v d hd => ?_⟩
  · simp [poolBroadcast]
  · simp [poolDeliveries]
  · rcases List.mem_map.mp hd with ⟨c, hc, hcd⟩
    rcases List.mem_filter.mp hc with ⟨_, hne⟩
    rcases hcd with rfl
    simpa using hne

/-- C6 witness: in a two-client pool with client A removed, the one
delivery of a broadcast goes to B and not to A. -/
theorem c6_broadcast_delivery_witness :
    ("B", ({ position := { x := 0, y := 0, z := 0 },
             target := { x := 0, y := 0, z := 0 } } : Camera))
        ∈ poolDeliveries
          (poolRemove
            { clients := [{ id := "A", delivered := [] }, { id := "B", delivered := [] }] } "A")
          { position := { x := 0, y := 0, z := 0 }, target := { x := 0, y := 0, z := 0 } }
  ∧ ("B", ({ position := { x := 0, y := 0, z := 0 },
             target := { x := 0, y := 0, z := 0 } } : Camera)).1 ≠ "A" :=
  ⟨by decide, c6_broadcast_delivery.2.2
    { clients := [{ id := "A", delivered := [] }, { id := "B", delivered := [] }] } "A"
    { position := { x := 0, y := 0, z := 0 }, target := { x := 0, y := 0, z := 0 } }
    ("B", { position := { x := 0, y := 0, z := 0 }, target := { x := 0, y := 0, z := 0 } })
    (by decide)⟩

/-- C7: a decoded blend message stores, under every face shape field its
key matches, the received value clamped to the unit interval: the
handler result on a matching key holds exactly the clamp of the input,
the clamp maps three halves to 1, minus three tenths to 0 and leaves
forty-two hundredths unchanged, and every clamped value lies between 0
and 1. -/
theorem c7_blend_clamp :
    (∀ (st : VrmState) (key : String) (v : ℚ) (s : ShapeName),
        jsonKeyMatch key (shapeTag s) = true →
        ∃ st2, blendValHandler st [OscArg.str key, OscArg.flt v] = Outcome.ok st2
          ∧ st2.faceShapes s = clampBlend v)
  ∧ clampBlend (3 / 2) = 1
  ∧ clampBlend (-(3 / 10)) = 0
  ∧ clampBlend (42 / 100) = 42 / 100
  ∧ (∀ v : ℚ, 0 ≤ clampBlend v ∧ clampBlend v ≤ 1) := by
  refine ⟨fun st key v s h => ⟨_, rfl, ?_⟩, by norm_num [clampBlend], by norm_num [clampBlend],
    by norm_num [clampBlend], fun v => ?_⟩
  · simp [applyBlendDelta, h]
  · simp only [clampBlend]
    constructor <;> { split_ifs <;> linarith }

/-- C7 witness: the key EyeBlinkLeft with value three halves stores 1 on
the matching field. -/
theorem c7_blend_clamp_witness :
    jsonKeyMatch "EyeBlinkLeft" (shapeTag ShapeName.eyeBlinkLeft) = true
  ∧ ∃ st2, blendValHandler vrmState0 [OscArg.str "EyeBlinkLeft", OscArg.flt (3 / 2)] = Outcome.ok st2
      ∧ st2.faceShapes ShapeName.eyeBlinkLeft = clampBlend (3 / 2) :=
  ⟨by decide, c7_blend_clamp.1 vrmState0 "EyeBlinkLeft" (3 / 2) ShapeName.eyeBlinkLeft (by decide)⟩

/-- C8: the bone merge and the blend merge each touch only the fields
their key matches: a bone field whose tag does not match the key of a
bone delta keeps its previous value, a bone delta never changes any
blend shape, a blend field whose tag does not match the key of a blend
delta keeps its previous value, and a blend delta never changes any
bone. -/
theorem c8_single_key_merge :
    (∀ (st : VrmState) (key : String) (nb : VrmBone) (b : BoneName),
        jsonKeyMatch key (boneTag b) = false →
        (applyBoneDelta st key nb).bones b = st.bones b)
  ∧ (∀ (st : VrmState) (key : String) (nb : VrmBone) (s : ShapeName),
        (applyBoneDelta st key nb).faceShapes s = st.faceShapes s)
  ∧ (∀ (st : VrmState) (key : String) (v : ℚ) (s : ShapeName),
        jsonKeyMatch key (shapeTag s) = false →
        (applyBlendDelta st key v).faceShapes s = st.faceShapes s)
  ∧ (∀ (st : VrmState) (key : String) (v : ℚ) (b : BoneName),
        (applyBlendDelta st key v).bones b = st.bones b) := by
  refine ⟨fun st key nb b h => ?_, fun st key nb s => rfl, fun st key v s h => ?_,
    fun st key v b => rfl⟩
  · simp [applyBoneDelta, h]
  · simp [applyBlendDelta, h]

/-- C8 witness: a delta on the hips key leaves the spine bone at its
previous value. -/
theorem c8_single_key_merge_witness :
    jsonKeyMatch "hips" (boneTag BoneName.spine) = false
  ∧ (applyBoneDelta vrmState0 "hips" zeroBone).bones BoneName.spine = vrmState0.bones BoneName.spine :=
  ⟨by decide, c8_single_key_merge.1 vrmState0 "hips" zeroBone BoneName.spine (by decide)⟩

/-- C10: the blend handler stores under its raw inbound key: a key
matching no face shape tag under the case folding of encoding/json is
silently ignored, the handler completing normally with the state
unchanged; the already snake-cased key eye_blink_left matches no tag;
the raw CamelCase key EyeBlinkLeft stores on its field, and so does the
key EYEBLINKLEFT through case-insensitive matching. -/
theorem c10_blend_raw_key :
    (∀ (st : VrmState) (key : String) (v : ℚ),
        (∀ s : ShapeName, jsonKeyMatch key (shapeTag s) = false) →
        blendValHandler st [OscArg.str key, OscArg.flt v] = Outcome.ok st)
  ∧ (∀ s : ShapeName, jsonKeyMatch "eye_blink_left" (shapeTag s) = false)
  ∧ (∃ st2, blendValHandler vrmState0 [OscArg.str "EyeBlinkLeft", OscArg.flt (1 / 2)] = Outcome.ok st2
      ∧ st2.faceShapes ShapeName.eyeBlinkLeft = 1 / 2)
  ∧ (∃ st2, blendValHandler vrmState0 [OscArg.str "EYEBLINKLEFT", OscArg.flt (1 / 2)] = Outcome.ok st2
      ∧ st2.faceShapes ShapeName.eyeBlinkLeft = 1 / 2) := by
  have hm1 : jsonKeyMatch "EyeBlinkLeft" (shapeTag ShapeName.eyeBlinkLeft) = true := by decide
  have hm2 : jsonKeyMatch "EYEBLINKLEFT" (shapeTag ShapeName.eyeBlinkLeft) = true := by decide
  refine ⟨fun st key v h => ?_, by decide,
    ⟨_, rfl, by simp [applyBlendDelta, hm1]; norm_num [clampBlend]⟩,
    ⟨_, rfl, by simp [applyBlendDelta, hm2]; norm_num [clampBlend]⟩⟩
  have hf : (fun s => if jsonKeyMatch key (shapeTag s) then clampBlend v else st.faceShapes s)
      = st.faceShapes := by
    funext s
    rw [h s]
    simp
  show Outcome.ok (applyBlendDelta st key (clampBlend v)) = Outcome.ok st
  simp [applyBlendDelta, hf]

/-- C10 witness: the snake-cased key eye_blink_left is ignored with the
startup state returned unchanged. -/
theorem c10_blend_raw_key_witness :
    (∀ s : ShapeName, jsonKeyMatch "eye_blink_left" (shapeTag s) = false)
  ∧ blendValHandler vrmState0 [OscArg.str "eye_blink_left", OscArg.flt (1 / 2)] = Outcome.ok vrmState0 :=
  ⟨by decide, c10_blend_raw_key.1 vrmState0 "eye_blink_left" (1 / 2) (by decide)⟩

end Vanezo
